import Mathlib

/-!
Shallow embedding of the task-dispatch gateway of the
product-recommendation-agentic repository: the single-task route
(`backend/src/routes/agent.ts`), the batch MCP route (`setupMCPServer`),
the handler registry (`backend/src/agents/index.ts`) and the three
handlers (planner, research, execution).
-/

namespace MAPR

/-- JSON-ish runtime values, as produced by `express.json()` and handled by
the routes.  `vUndef` is JavaScript `undefined` (also used for an absent
field, which is indistinguishable from a field holding `undefined` under
every operation the source performs). -/
inductive Value where
  | vUndef
  | vNull
  | vBool (b : Bool)
  | vNum (n : Int)
  | vStr (s : String)
  | vArr (xs : List Value)
  | vObj (fs : List (String × Value))
deriving Repr

/-- JavaScript truthiness of a value (`!x` is `not (truthy x)`). -/
def truthy : Value → Bool
  | .vUndef => false
  | .vNull => false
  | .vBool b => b
  | .vNum n => n != 0
  | .vStr s => s != ""
  | .vArr _ => true
  | .vObj _ => true

/-- Field lookup in an object literal. -/
def getField : List (String × Value) → String → Option Value
  | [], _ => none
  | (k, v) :: fs, key => if k = key then some v else getField fs key

/-- Failures a handler body can raise: a `TypeError` from reading a property
of `null`/`undefined`, or a network failure from the research agent's
upstream fetch. -/
inductive HandlerErr where
  | typeError (key : String)
  | fetchError (msg : String)
deriving DecidableEq, Repr

/-- JavaScript property read `v[key]`: throws a `TypeError` on
`null`/`undefined`, yields the field (or `undefined`) on objects, and
`undefined` on every other primitive for the keys the source reads. -/
def jsGet : Value → String → Except HandlerErr Value
  | .vUndef, key => .error (.typeError key)
  | .vNull, key => .error (.typeError key)
  | .vObj fs, key => .ok ((getField fs key).getD .vUndef)
  | _, _ => .ok .vUndef

mutual

/-- JavaScript `String(v)` conversion, as used for template literals and
property-key coercion. -/
def jsToString : Value → String
  | .vUndef => "undefined"
  | .vNull => "null"
  | .vBool true => "true"
  | .vBool false => "false"
  | .vNum n => toString n
  | .vStr s => s
  | .vArr xs => String.intercalate "," (jsToStringList xs)
  | .vObj _ => "[object Object]"

/-- Array elements under `Array.prototype.toString`: `null`/`undefined`
render as the empty string. -/
def jsToStringList : List Value → List String
  | [] => []
  | .vUndef :: vs => "" :: jsToStringList vs
  | .vNull :: vs => "" :: jsToStringList vs
  | v :: vs => jsToString v :: jsToStringList vs

end

/-- Hexadecimal digit (uppercase, as `encodeURIComponent` emits). -/
def hexDigit (n : Nat) : Char :=
  if n < 10 then Char.ofNat (48 + n) else Char.ofNat (55 + n)

/-- Percent-encoding of one byte. -/
def percentByte (b : Nat) : String :=
  String.mk [Char.ofNat 37, hexDigit (b / 16), hexDigit (b % 16)]

/-- UTF-8 bytes of a code point. -/
def utf8Bytes (n : Nat) : List Nat :=
  if n < 0x80 then [n]
  else if n < 0x800 then [0xC0 + n / 0x40, 0x80 + n % 0x40]
  else if n < 0x10000 then
    [0xE0 + n / 0x1000, 0x80 + (n / 0x40) % 0x40, 0x80 + n % 0x40]
  else
    [0xF0 + n / 0x40000, 0x80 + (n / 0x1000) % 0x40,
     0x80 + (n / 0x40) % 0x40, 0x80 + n % 0x40]

/-- Characters `encodeURIComponent` leaves unescaped. -/
def isUnescaped (c : Char) : Bool :=
  c.isAlpha || c.isDigit ||
    c.toNat == 45 || c.toNat == 95 || c.toNat == 46 || c.toNat == 33 ||
    c.toNat == 126 || c.toNat == 42 || c.toNat == 39 || c.toNat == 40 ||
    c.toNat == 41

/-- JavaScript `encodeURIComponent`. -/
def encodeURIComponent (s : String) : String :=
  String.join (s.toList.map fun c =>
    if isUnescaped c then String.singleton c
    else String.join ((utf8Bytes c.toNat).map percentByte))

/-- An agent as in the source: a name and a `handleTask` operation
(`backend/src/agents/*.ts`). -/
structure Agent where
  name : String
  handleTask : Value → Except HandlerErr Value

/-- The planner agent (`backend/src/agents/plannerAgent.ts`): reads
`task.payload.goal` (a `TypeError` if `payload` is `null`/`undefined`) and
returns a fixed list of steps, the first interpolating the goal. -/
def plannerAgent : Agent where
  name := "PlannerAgent"
  handleTask task :=
    match jsGet task "payload" with
    | .error e => .error e
    | .ok payload =>
      match jsGet payload "goal" with
      | .error e => .error e
      | .ok goal =>
        .ok (.vObj [("steps", .vArr
          [ .vStr ("Define the goal: " ++ jsToString goal),
            .vStr "Research requirements",
            .vStr "List resources",
            .vStr "Create timeline",
            .vStr "Assign tasks"])])

/-- The research agent (`backend/src/agents/researchAgent.ts`): reads
`task.payload.query`, fetches the Wikipedia summary endpoint for it and
returns `data.extract` as the summary.  The network call `axios.get` is the
explicit `fetch` collaborator (it yields the response `data`, or fails). -/
def researchAgent (fetch : String → Except HandlerErr Value) : Agent where
  name := "ResearchAgent"
  handleTask task :=
    match jsGet task "payload" with
    | .error e => .error e
    | .ok payload =>
      match jsGet payload "query" with
      | .error e => .error e
      | .ok query =>
        match fetch ("https://en.wikipedia.org/api/rest_v1/page/summary/"
            ++ encodeURIComponent (jsToString query)) with
        | .error e => .error e
        | .ok data =>
          match jsGet data "extract" with
          | .error e => .error e
          | .ok extract => .ok (.vObj [("summary", extract)])

/-- The execution agent (`backend/src/agents/executionAgent.ts`):
destructures `task.payload` into `action`/`data` (a `TypeError` if `payload`
is `null`/`undefined`), then an `if`/`else if` chain on strict equality of
`action` against the four CRUD strings, with an `Unknown action` value
(returned as a success) in the final `else`. -/
def executionAgent : Agent where
  name := "ExecutionAgent"
  handleTask task :=
    match jsGet task "payload" with
    | .error e => .error e
    | .ok payload =>
      match jsGet payload "action", jsGet payload "data" with
      | .error e, _ => .error e
      | .ok _, .error e => .error e
      | .ok action, .ok data =>
        .ok (match action with
          | .vStr s =>
            if s = "create" then .vObj [("status", .vStr "created"), ("data", data)]
            else if s = "read" then .vObj [("status", .vStr "read"), ("data", data)]
            else if s = "update" then .vObj [("status", .vStr "updated"), ("data", data)]
            else if s = "delete" then .vObj [("status", .vStr "deleted"), ("data", data)]
            else .vObj [("error", .vStr "Unknown action")]
          | _ => .vObj [("error", .vStr "Unknown action")])

/-- Result of the property read `agents[key]` on the registry object
literal: one of the three registered agents; a truthy value inherited from
`Object.prototype` (for keys such as `toString` or `constructor` the
inherited member is a function, for `__proto__` an object — all truthy,
none with a callable `handleTask`); or `undefined` for every other key. -/
inductive AgentsLookup where
  | registered (a : Agent)
  | inherited
  | absent

/-- Keys at which an object literal finds a truthy member inherited from
`Object.prototype`. -/
def protoKey (key : String) : Bool :=
  key = "constructor" || key = "toString" || key = "toLocaleString" ||
  key = "valueOf" || key = "hasOwnProperty" || key = "isPrototypeOf" ||
  key = "propertyIsEnumerable" || key = "__proto__" ||
  key = "__defineGetter__" || key = "__defineSetter__" ||
  key = "__lookupGetter__" || key = "__lookupSetter__"

/-- The handler registry (`backend/src/agents/index.ts`): the object literal
`agents` keyed by task type.  Lookup is a JavaScript property read, so it
coerces the key to a string (callers pass `jsToString`) and falls through to
`Object.prototype` before yielding `undefined`. -/
def agents (fetch : String → Except HandlerErr Value) (key : String) : AgentsLookup :=
  if key = "research" then .registered (researchAgent fetch)
  else if key = "planner" then .registered plannerAgent
  else if key = "execution" then .registered executionAgent
  else if protoKey key then .inherited
  else .absent

/-- The result of one request against a route: an HTTP response
(status and JSON body) or an error that escaped the route handler uncaught. -/
inductive RouteResult where
  | resp (status : Nat) (body : Value)
  | thrown (e : HandlerErr)
deriving Repr

/-- Body of the form `{ error: msg }`. -/
def mkErr (msg : String) : Value := .vObj [("error", .vStr msg)]

/-- Batch outcome `{ agent: t.taskType, error: 'Unknown agent' }`. -/
def mkUnknown (tt : Value) : Value :=
  .vObj [("agent", tt), ("error", .vStr "Unknown agent")]

/-- Batch outcome `{ agent: t.taskType, result }`. -/
def mkResult (tt r : Value) : Value :=
  .vObj [("agent", tt), ("result", r)]

/-- The task object the single-task route passes to the handler:
`{ userId: user.id, taskType, payload }` (agent.ts line 15). -/
def mkTask (uid tt pl : Value) : Value :=
  .vObj [("userId", uid), ("taskType", tt), ("payload", pl)]

/-- JavaScript `split(' ')` at the character level: a piece boundary at each
space, empty pieces kept. -/
def splitSpace : List Char → List (List Char)
  | [] => [[]]
  | c :: cs =>
    match splitSpace cs with
    | [] => [[]]
    | g :: gs => if c = ' ' then [] :: g :: gs else (c :: g) :: gs

/-- JavaScript `s.split(' ')`. -/
def jsSplitSpace (s : String) : List String :=
  (splitSpace s.toList).map String.mk

/-- Bearer-token extraction (agent.ts line 8):
`req.headers.authorization?.split(' ')[1]`. -/
def extractToken : Option String → Option String
  | none => none
  | some s => (jsSplitSpace s)[1]?

/-- The single-task route `POST /api/agent/task`
(`backend/src/routes/agent.ts`).  `verify` is the external `verifyToken`
collaborator (`../utils/jwt`, not under src): it yields the decoded user or
throws.  The second component of the result is the trace of task objects
passed to `handleTask` (the handler-invocation record). -/
def postAgentTask (verify : String → Except Unit Value)
    (fetch : String → Except HandlerErr Value)
    (authorization : Option String) (body : Value) :
    RouteResult × List Value :=
  match extractToken authorization with
  | none => (.resp 401 (mkErr "No token"), [])
  | some tok =>
    if tok = "" then (.resp 401 (mkErr "No token"), [])
    else
      match verify tok with
      | .error _ => (.resp 401 (mkErr "Invalid token"), [])
      | .ok user =>
        match jsGet body "taskType", jsGet body "payload" with
        | .error _, _ => (.resp 401 (mkErr "Invalid token"), [])
        | .ok _, .error _ => (.resp 401 (mkErr "Invalid token"), [])
        | .ok taskType, .ok payload =>
          if truthy taskType = false ∨ truthy payload = false then
            (.resp 400 (mkErr "Missing fields"), [])
          else
            match agents fetch (jsToString taskType) with
            | .absent => (.resp 400 (mkErr "Unknown agent"), [])
            | .inherited =>
              -- the truthy inherited member passes `!agents[taskType]`, but
              -- its `handleTask` is `undefined`: the call on line 15 throws
              -- a `TypeError` into the route's catch before any handler runs
              (.resp 401 (mkErr "Invalid token"), [])
            | .registered handler =>
              match jsGet user "id" with
              | .error _ => (.resp 401 (mkErr "Invalid token"), [])
              | .ok uid =>
                match handler.handleTask (mkTask uid taskType payload) with
                | .error _ =>
                  (.resp 401 (mkErr "Invalid token"), [mkTask uid taskType payload])
                | .ok result =>
                  (.resp 200 (.vObj [("agent", taskType), ("result", result)]),
                   [mkTask uid taskType payload])

/-- The loop body of the MCP coordinate route (`setupMCPServer`): for each
task `t`, look up `agents[t.taskType]`; if absent push
`{ agent: t.taskType, error: 'Unknown agent' }` and continue, else await
`handleTask(t)` and push `{ agent: t.taskType, result }`.  There is no
try/catch: the first error thrown (reading `t.taskType` of a null task, or a
handler failure) aborts the loop and escapes.  The second component is the
trace of tasks passed to `handleTask`. -/
def coordinateLoop (fetch : String → Except HandlerErr Value) :
    List Value → Except HandlerErr (List Value) × List Value
  | [] => (.ok [], [])
  | t :: ts =>
    match jsGet t "taskType" with
    | .error e => (.error e, [])
    | .ok tt =>
      match agents fetch (jsToString tt) with
      | .absent =>
        match coordinateLoop fetch ts with
        | (.ok rest, tr) => (.ok (mkUnknown tt :: rest), tr)
        | (.error e, tr) => (.error e, tr)
      | .inherited =>
        -- `!agents[t.taskType]` is false for the truthy inherited member,
        -- but its `handleTask` is `undefined`: the call throws a
        -- `TypeError` that escapes the loop uncaught, invoking no handler
        (.error (.typeError "handleTask"), [])
      | .registered handler =>
        match handler.handleTask t with
        | .error e => (.error e, [t])
        | .ok r =>
          match coordinateLoop fetch ts with
          | (.ok rest, tr) => (.ok (mkResult tt r :: rest), t :: tr)
          | (.error e, tr) => (.error e, t :: tr)

/-- The MCP coordinate route `POST /api/mcp/coordinate` (`setupMCPServer`):
destructure `tasks` from the body, reject non-arrays with 400, then run the
loop; an uncaught error from the loop escapes the route. -/
def coordinate (fetch : String → Except HandlerErr Value) (body : Value) :
    RouteResult × List Value :=
  match jsGet body "tasks" with
  | .error e => (.thrown e, [])
  | .ok (.vArr ts) =>
    match coordinateLoop fetch ts with
    | (.ok results, tr) => (.resp 200 (.vObj [("results", .vArr results)]), tr)
    | (.error e, tr) => (.thrown e, tr)
  | .ok _ => (.resp 400 (mkErr "Tasks must be array"), [])

/-- The dispatch-layer outcome of one batch task, in isolation: the unknown
branch, or the wrapped handler result, or the error about to escape. -/
def taskOutcome (fetch : String → Except HandlerErr Value) (t : Value) :
    Except HandlerErr Value :=
  match jsGet t "taskType" with
  | .error e => .error e
  | .ok tt =>
    match agents fetch (jsToString tt) with
    | .absent => .ok (mkUnknown tt)
    | .inherited => .error (.typeError "handleTask")
    | .registered handler =>
      match handler.handleTask t with
      | .error e => .error e
      | .ok r => .ok (mkResult tt r)

/-- Test fixture: a verifier accepting every token, decoding user `u1`. -/
def okVerify : String → Except Unit Value :=
  fun _ => .ok (.vObj [("id", .vStr "u1")])

/-- Test fixture: a verifier rejecting every token. -/
def badVerify : String → Except Unit Value := fun _ => .error ()

/-- Test fixture: a fetch collaborator whose network is down. -/
def noFetch : String → Except HandlerErr Value :=
  fun _ => .error (.fetchError "network unreachable")

/-- Test fixture: a batch task with an unregistered task type. -/
def ghostTask : Value := .vObj [("taskType", .vStr "ghost")]

/-- Test fixture: an execution task with no payload field: its handler
destructures `task.payload` and raises a `TypeError`. -/
def badExecTask : Value := .vObj [("taskType", .vStr "execution")]

/-- Test fixture: a well-formed planner task. -/
def plannerShipTask : Value :=
  .vObj [("taskType", .vStr "planner"), ("payload", .vObj [("goal", .vStr "ship")])]

/-- The planner agent's output on `plannerShipTask`. -/
def plannerShipSteps : Value :=
  .vObj [("steps", .vArr
    [ .vStr "Define the goal: ship",
      .vStr "Research requirements",
      .vStr "List resources",
      .vStr "Create timeline",
      .vStr "Assign tasks"])]

/-- When the loop completes, it yields one outcome per input task, in input
order, and each outcome is that task's own dispatch outcome. -/
theorem coordinateLoop_ok_spec (fetch : String → Except HandlerErr Value)
    (ts : List Value) :
    ∀ results, (coordinateLoop fetch ts).1 = .ok results →
      results.length = ts.length ∧
      ∀ (i : Nat) (t : Value), ts[i]? = some t →
        ∃ out, taskOutcome fetch t = .ok out ∧ results[i]? = some out := by
  induction ts with
  | nil =>
    intro results h
    simp only [coordinateLoop] at h
    cases h
    simp
  | cons t ts ih =>
    intro results h
    simp only [coordinateLoop] at h
    cases hjs : jsGet t "taskType" with
    | error e => simp only [hjs] at h; cases h
    | ok tt =>
      simp only [hjs] at h
      cases hag : agents fetch (jsToString tt) with
      | absent =>
        simp only [hag] at h
        cases hloop : coordinateLoop fetch ts with
        | mk outc tr =>
          simp only [hloop] at h
          cases outc with
          | error e => simp at h
          | ok rest =>
            simp only [Except.ok.injEq] at h
            subst h
            obtain ⟨hlen, hidx⟩ := ih rest (by rw [hloop])
            refine ⟨by simp [hlen], ?_⟩
            intro i t' hit
            cases i with
            | zero =>
              simp only [List.getElem?_cons_zero, Option.some.injEq] at hit
              subst hit
              exact ⟨mkUnknown tt, by simp [taskOutcome, hjs, hag], by simp⟩
            | succ i =>
              simp only [List.getElem?_cons_succ] at hit ⊢
              exact hidx i t' hit
      | inherited => simp only [hag] at h; cases h
      | registered handler =>
        simp only [hag] at h
        cases hht : handler.handleTask t with
        | error e => simp only [hht] at h; cases h
        | ok r =>
          simp only [hht] at h
          cases hloop : coordinateLoop fetch ts with
          | mk outc tr =>
            simp only [hloop] at h
            cases outc with
            | error e => simp at h
            | ok rest =>
              simp only [Except.ok.injEq] at h
              subst h
              obtain ⟨hlen, hidx⟩ := ih rest (by rw [hloop])
              refine ⟨by simp [hlen], ?_⟩
              intro i t' hit
              cases i with
              | zero =>
                simp only [List.getElem?_cons_zero, Option.some.injEq] at hit
                subst hit
                exact ⟨mkResult tt r, by simp [taskOutcome, hjs, hag, hht], by simp⟩
              | succ i =>
                simp only [List.getElem?_cons_succ] at hit ⊢
                exact hidx i t' hit

/-- Every task the loop hands to a handler is one of the input tasks,
passed unchanged, and its task type resolves to a registered handler. -/
theorem coordinateLoop_trace_spec (fetch : String → Except HandlerErr Value)
    (ts : List Value) :
    ∀ v ∈ (coordinateLoop fetch ts).2, v ∈ ts ∧
      ∃ tt a, jsGet v "taskType" = .ok tt ∧
        agents fetch (jsToString tt) = .registered a := by
  induction ts with
  | nil => intro v hv; simp [coordinateLoop] at hv
  | cons t ts ih =>
    intro v hv
    simp only [coordinateLoop] at hv
    cases hjs : jsGet t "taskType" with
    | error e => simp only [hjs] at hv; simp at hv
    | ok tt =>
      simp only [hjs] at hv
      cases hag : agents fetch (jsToString tt) with
      | absent =>
        simp only [hag] at hv
        cases hloop : coordinateLoop fetch ts with
        | mk outc tr =>
          simp only [hloop] at hv
          have hv' : v ∈ tr := by cases outc <;> simpa using hv
          have := ih v (by rw [hloop]; exact hv')
          exact ⟨List.mem_cons_of_mem t this.1, this.2⟩
      | inherited => simp only [hag] at hv; simp at hv
      | registered handler =>
        simp only [hag] at hv
        cases hht : handler.handleTask t with
        | error e =>
          simp only [hht] at hv
          simp only [List.mem_singleton] at hv
          subst hv
          exact ⟨List.mem_cons_self _ _, tt, handler, hjs, hag⟩
        | ok r =>
          simp only [hht] at hv
          cases hloop : coordinateLoop fetch ts with
          | mk outc tr =>
            simp only [hloop] at hv
            have hv' : v = t ∨ v ∈ tr := by cases outc <;> simpa using hv
            cases hv' with
            | inl hv' =>
              subst hv'
              exact ⟨List.mem_cons_self v ts, tt, handler, hjs, hag⟩
            | inr hv' =>
              have := ih v (by rw [hloop]; exact hv')
              exact ⟨List.mem_cons_of_mem t this.1, this.2⟩

/-- The single-task route, once the token, the verifier and the two body
fields have been resolved and validation has passed, reduces to the
registry lookup and dispatch step. -/
theorem postAgentTask_validated (verify : String → Except Unit Value)
    (fetch : String → Except HandlerErr Value)
    (auth : Option String) (body : Value) (tok : String) (user tt pl : Value)
    (h1 : extractToken auth = some tok) (h2 : ¬ tok = "")
    (h3 : verify tok = .ok user)
    (h4 : jsGet body "taskType" = .ok tt) (h5 : jsGet body "payload" = .ok pl)
    (h6 : truthy tt = true) (h7 : truthy pl = true) :
    postAgentTask verify fetch auth body =
      match agents fetch (jsToString tt) with
      | .absent => (.resp 400 (mkErr "Unknown agent"), [])
      | .inherited => (.resp 401 (mkErr "Invalid token"), [])
      | .registered handler =>
        match jsGet user "id" with
        | .error _ => (.resp 401 (mkErr "Invalid token"), [])
        | .ok uid =>
          match handler.handleTask (mkTask uid tt pl) with
          | .error _ =>
            (.resp 401 (mkErr "Invalid token"), [mkTask uid tt pl])
          | .ok result =>
            (.resp 200 (.vObj [("agent", tt), ("result", result)]),
             [mkTask uid tt pl]) := by
  simp only [postAgentTask, h1]
  rw [if_neg h2]
  simp only [h3, h4, h5]
  rw [if_neg (show ¬ (truthy tt = false ∨ truthy pl = false) by simp [h6, h7])]

/-- C1, counterexample: a batch of one `execution` task without a payload
field makes the handler throw a `TypeError`; the coordinate route has no
try/catch around the loop, so the error escapes and the route produces no
outcome list at all — not one outcome per input task.  A single task's
failure does abort the batch. -/
theorem batch_handler_throw_aborts :
    coordinate noFetch (.vObj [("tasks", .vArr [badExecTask])])
      = (.thrown (.typeError "action"), [badExecTask]) := rfl

/-- C1, amended: whenever the coordinate route returns a result list at
all, that list has exactly one outcome per input task, in input order,
each outcome being its own task's dispatch outcome.  The route does not
always return a list: an invoked handler that throws aborts the whole
batch uncaught, with no outcome list produced. -/
theorem coordinateBatch_order_preservation
    (fetch : String → Except HandlerErr Value) (body : Value)
    (ts results tr : List Value)
    (hb : jsGet body "tasks" = .ok (.vArr ts))
    (h : coordinate fetch body
          = (.resp 200 (.vObj [("results", .vArr results)]), tr)) :
    results.length = ts.length ∧
    ∀ (i : Nat) (t : Value), ts[i]? = some t →
      ∃ out, taskOutcome fetch t = .ok out ∧ results[i]? = some out := by
  have hloop : (coordinateLoop fetch ts).1 = .ok results := by
    simp only [coordinate, hb] at h
    cases hl : coordinateLoop fetch ts with
    | mk outc tr' =>
      simp only [hl] at h
      cases outc with
      | error e => simp at h
      | ok rs =>
        simp only [Prod.mk.injEq, RouteResult.resp.injEq, Value.vObj.injEq,
          List.cons.injEq, Prod.mk.injEq, Value.vArr.injEq, and_true,
          true_and] at h
        simp [h.1]
  exact coordinateLoop_ok_spec fetch ts results hloop

/-- C1, witness: a two-task batch (one valid planner task, one unknown task
type) returns two outcomes in order. -/
theorem coordinateBatch_order_preservation_inst :
    ([mkResult (Value.vStr "planner") plannerShipSteps,
      mkUnknown (Value.vStr "ghost")] : List Value).length
      = ([plannerShipTask, ghostTask] : List Value).length ∧
    ∀ (i : Nat) (t : Value), ([plannerShipTask, ghostTask] : List Value)[i]? = some t →
      ∃ out, taskOutcome noFetch t = .ok out ∧
        ([mkResult (Value.vStr "planner") plannerShipSteps,
          mkUnknown (Value.vStr "ghost")] : List Value)[i]? = some out :=
  coordinateBatch_order_preservation noFetch
    (.vObj [("tasks", .vArr [plannerShipTask, ghostTask])])
    [plannerShipTask, ghostTask]
    [mkResult (Value.vStr "planner") plannerShipSteps,
     mkUnknown (Value.vStr "ghost")]
    [plannerShipTask] rfl rfl

/-- C3, counterexample: a batch pairing an unknown task type with an
`execution` task whose handler throws never produces a result list, so the
unknown task's index carries no `UnknownAgent` outcome and the other index
carries no result: the whole batch is aborted by the second task's
failure. -/
theorem unknown_isolation_fails_on_throw :
    coordinate noFetch (.vObj [("tasks", .vArr [ghostTask, badExecTask])])
      = (.thrown (.typeError "action"), [badExecTask]) := rfl

/-- C3, amended: whenever the coordinate route does return a result list
(every invoked handler returned instead of throwing), each task with an
unregistered task type yields `agent`/`Unknown agent` at exactly its own
index and is never passed to any handler, and each task with a registered
task type yields its own handler's real result at its own index. -/
theorem coordinateBatch_unknown_isolation
    (fetch : String → Except HandlerErr Value) (body : Value)
    (ts results tr : List Value)
    (hb : jsGet body "tasks" = .ok (.vArr ts))
    (h : coordinate fetch body
          = (.resp 200 (.vObj [("results", .vArr results)]), tr)) :
    (∀ (i : Nat) (t tt : Value), ts[i]? = some t →
       jsGet t "taskType" = .ok tt → agents fetch (jsToString tt) = .absent →
       results[i]? = some (mkUnknown tt) ∧ t ∉ tr)
    ∧ (∀ (i : Nat) (t tt : Value) (a : Agent), ts[i]? = some t →
       jsGet t "taskType" = .ok tt →
       agents fetch (jsToString tt) = .registered a →
       ∃ r, a.handleTask t = .ok r ∧ results[i]? = some (mkResult tt r)) := by
  have hpair : (coordinateLoop fetch ts).1 = .ok results ∧
      (coordinateLoop fetch ts).2 = tr := by
    simp only [coordinate, hb] at h
    cases hl : coordinateLoop fetch ts with
    | mk outc tr' =>
      simp only [hl] at h
      cases outc with
      | error e => simp at h
      | ok rs =>
        simp only [Prod.mk.injEq, RouteResult.resp.injEq, Value.vObj.injEq,
          List.cons.injEq, Prod.mk.injEq, Value.vArr.injEq, and_true,
          true_and] at h
        exact ⟨by simp [h.1], by simp [h.2]⟩
  obtain ⟨hok, htr⟩ := hpair
  obtain ⟨_, hidx⟩ := coordinateLoop_ok_spec fetch ts results hok
  constructor
  · intro i t tt hit hjs hag
    obtain ⟨out, hout, hres⟩ := hidx i t hit
    refine ⟨?_, ?_⟩
    · simp only [taskOutcome, hjs, hag, Except.ok.injEq] at hout
      rw [hout]; exact hres
    · intro hmem
      rw [← htr] at hmem
      obtain ⟨_, tt', a, hjs', hag'⟩ := coordinateLoop_trace_spec fetch ts t hmem
      rw [hjs] at hjs'
      cases hjs'
      rw [hag] at hag'
      cases hag'
  · intro i t tt a hit hjs hag
    obtain ⟨out, hout, hres⟩ := hidx i t hit
    simp only [taskOutcome, hjs, hag] at hout
    cases hht : a.handleTask t with
    | error e => rw [hht] at hout; cases hout
    | ok r =>
      rw [hht] at hout
      simp only [Except.ok.injEq] at hout
      exact ⟨r, rfl, by rw [hout]; exact hres⟩

/-- C3, witness: in the batch `[ghost, planner]` the unknown task yields
`Unknown agent` at index 0 without being handed to a handler, and the
planner task yields its real result at index 1. -/
theorem coordinateBatch_unknown_isolation_inst :
    (([mkUnknown (Value.vStr "ghost"),
       mkResult (Value.vStr "planner") plannerShipSteps] : List Value)[0]?
        = some (mkUnknown (Value.vStr "ghost"))
      ∧ ghostTask ∉ ([plannerShipTask] : List Value))
    ∧ ∃ r, plannerAgent.handleTask plannerShipTask = .ok r ∧
        ([mkUnknown (Value.vStr "ghost"),
          mkResult (Value.vStr "planner") plannerShipSteps] : List Value)[1]?
          = some (mkResult (Value.vStr "planner") r) := by
  have h := coordinateBatch_unknown_isolation noFetch
    (.vObj [("tasks", .vArr [ghostTask, plannerShipTask])])
    [ghostTask, plannerShipTask]
    [mkUnknown (Value.vStr "ghost"),
     mkResult (Value.vStr "planner") plannerShipSteps]
    [plannerShipTask] rfl rfl
  exact ⟨h.1 0 ghostTask (Value.vStr "ghost") rfl rfl rfl,
         h.2 1 plannerShipTask (Value.vStr "planner") plannerAgent rfl rfl rfl⟩

/-- C9, counterexample: a batch element that is `null` has no `taskType`
field, yet the coordinator does not emit an `Unknown agent` outcome for it:
reading `t.taskType` throws a `TypeError` that escapes the route. -/
theorem null_batch_element_throws :
    coordinate noFetch (.vObj [("tasks", .vArr [.vNull])])
      = (.thrown (.typeError "taskType"), []) := rfl

/-- C9, amended: batch tasks bypass the task validator.  The coordinate
route never answers any per-element validation error: its only non-200
response is 400 `Tasks must be array` for a non-array `tasks` field.  When
the loop reaches an element whose task type (read as a property,
`undefined` when the field is absent) resolves to no registry member —
absent, empty, or simply unknown, but not an inherited `Object.prototype`
member name — it contributes the `agent`/`Unknown agent` outcome and is
never handed to a handler; when it reaches an element with a registered
task type, the handler is invoked with the element as is, its payload
field never checked first.  A `null` element (`TypeError` reading
`taskType`) or an element whose task type names an `Object.prototype`
member such as `toString` (`TypeError` calling the `undefined`
`handleTask`) instead aborts the batch uncaught. -/
theorem batch_bypasses_validation :
    (∀ (fetch : String → Except HandlerErr Value) (body : Value)
       (st : Nat) (b : Value) (tr : List Value),
       coordinate fetch body = (.resp st b, tr) →
       (st = 400 ∧ b = mkErr "Tasks must be array") ∨
       (st = 200 ∧ ∃ results, b = .vObj [("results", .vArr results)]))
    ∧ (∀ (fetch : String → Except HandlerErr Value) (t : Value)
       (rest : List Value) (tt : Value),
       jsGet t "taskType" = .ok tt → agents fetch (jsToString tt) = .absent →
       (coordinateLoop fetch (t :: rest)).1
         = ((coordinateLoop fetch rest).1).map (fun rs => mkUnknown tt :: rs)
       ∧ (coordinateLoop fetch (t :: rest)).2 = (coordinateLoop fetch rest).2)
    ∧ (∀ (fetch : String → Except HandlerErr Value) (t : Value)
       (rest : List Value) (tt : Value) (a : Agent),
       jsGet t "taskType" = .ok tt →
       agents fetch (jsToString tt) = .registered a →
       t ∈ (coordinateLoop fetch (t :: rest)).2) := by
  refine ⟨?_, ?_, ?_⟩
  · intro fetch body st b tr h
    simp only [coordinate] at h
    cases hjs : jsGet body "tasks" with
    | error e => simp only [hjs] at h; simp at h
    | ok tasks =>
      simp only [hjs] at h
      cases tasks
      case vArr ts =>
        cases hl : coordinateLoop fetch ts with
        | mk outc tr' =>
          simp only [hl] at h
          cases outc with
          | error e => simp at h
          | ok results =>
            simp only [Prod.mk.injEq, RouteResult.resp.injEq] at h
            exact Or.inr ⟨h.1.1.symm, results, h.1.2.symm⟩
      all_goals
        simp only [Prod.mk.injEq, RouteResult.resp.injEq] at h
        exact Or.inl ⟨h.1.1.symm, h.1.2.symm⟩
  · intro fetch t rest tt hjs hag
    cases hl : coordinateLoop fetch rest with
    | mk outc tr =>
      cases outc with
      | ok rs =>
        exact ⟨by simp [coordinateLoop, hjs, hag, hl, Except.map],
               by simp [coordinateLoop, hjs, hag, hl]⟩
      | error e =>
        exact ⟨by simp [coordinateLoop, hjs, hag, hl, Except.map],
               by simp [coordinateLoop, hjs, hag, hl]⟩
  · intro fetch t rest tt a hjs hag
    simp only [coordinateLoop, hjs, hag]
    cases hht : a.handleTask t with
    | error e => simp
    | ok r =>
      cases hl : coordinateLoop fetch rest with
      | mk outc tr => cases outc <;> simp

/-- C9, witness: a non-array `tasks` field is the route's only validation
answer; an element with an empty task type contributes the `Unknown agent`
outcome to a longer batch with no handler invoked for it; and a planner
element with no payload field is still handed to its handler, ahead of a
further element. -/
theorem batch_bypasses_validation_inst :
    (((400 : Nat) = 400 ∧ mkErr "Tasks must be array" = mkErr "Tasks must be array") ∨
      ((400 : Nat) = 200 ∧ ∃ results,
        mkErr "Tasks must be array" = Value.vObj [("results", Value.vArr results)]))
    ∧ ((coordinateLoop noFetch
          [Value.vObj [("taskType", Value.vStr "")], plannerShipTask]).1
        = ((coordinateLoop noFetch [plannerShipTask]).1).map
            (fun rs => mkUnknown (Value.vStr "") :: rs)
      ∧ (coordinateLoop noFetch
          [Value.vObj [("taskType", Value.vStr "")], plannerShipTask]).2
        = (coordinateLoop noFetch [plannerShipTask]).2)
    ∧ Value.vObj [("taskType", Value.vStr "planner")]
        ∈ (coordinateLoop noFetch
            [Value.vObj [("taskType", Value.vStr "planner")], ghostTask]).2 :=
  ⟨batch_bypasses_validation.1 noFetch (.vObj [("tasks", .vNum 3)])
      400 (mkErr "Tasks must be array") [] rfl,
   batch_bypasses_validation.2.1 noFetch (Value.vObj [("taskType", Value.vStr "")])
      [plannerShipTask] (Value.vStr "") rfl rfl,
   batch_bypasses_validation.2.2 noFetch
      (Value.vObj [("taskType", Value.vStr "planner")]) [ghostTask]
      (Value.vStr "planner") plannerAgent rfl rfl⟩

/-- C2, counterexample: a research task dispatched with a valid token while
the upstream fetch fails.  The handler is invoked (the trace is nonempty)
and its failure is not converted into a dispatch outcome carrying a handler
error: the route's catch block answers `401` `Invalid token` — a
non-dispatch error response. -/
theorem handler_failure_as_invalid_token :
    postAgentTask okVerify noFetch (some "Bearer tok1")
      (.vObj [("taskType", .vStr "research"),
              ("payload", .vObj [("query", .vStr "lean")])])
      = (.resp 401 (mkErr "Invalid token"),
         [mkTask (.vStr "u1") (.vStr "research")
            (.vObj [("query", .vStr "lean")])]) := rfl

/-- C2, amended: on the single-task path a handler failure is caught by the
route's try/catch, but is converted to the transport response `401`
`Invalid token` (the same response as an invalid credential), not to a
dispatch outcome; on the batch path a handler failure is not caught at all
and escapes the coordinator uncaught. -/
theorem handler_failure_conversion :
    (∀ (verify : String → Except Unit Value)
       (fetch : String → Except HandlerErr Value)
       (auth : Option String) (body : Value) (tok : String)
       (user tt pl : Value) (a : Agent) (uid : Value) (e : HandlerErr),
       extractToken auth = some tok → ¬ tok = "" →
       verify tok = .ok user →
       jsGet body "taskType" = .ok tt → jsGet body "payload" = .ok pl →
       truthy tt = true → truthy pl = true →
       agents fetch (jsToString tt) = .registered a →
       jsGet user "id" = .ok uid →
       a.handleTask (mkTask uid tt pl) = .error e →
       postAgentTask verify fetch auth body
         = (.resp 401 (mkErr "Invalid token"), [mkTask uid tt pl]))
    ∧ (∀ (fetch : String → Except HandlerErr Value) (body : Value)
       (ts tr : List Value) (e : HandlerErr),
       jsGet body "tasks" = .ok (.vArr ts) →
       coordinateLoop fetch ts = (.error e, tr) →
       coordinate fetch body = (.thrown e, tr)) := by
  constructor
  · intro verify fetch auth body tok user tt pl a uid e h1 h2 h3 h4 h5 h6 h7 h8 h9 h10
    rw [postAgentTask_validated verify fetch auth body tok user tt pl h1 h2 h3 h4 h5 h6 h7]
    simp [h8, h9, h10]
  · intro fetch body ts tr e hb hl
    simp [coordinate, hb, hl]

/-- C2, witness: the single-path conversion at a concrete failing research
dispatch, and the batch-path escape at a concrete one-task batch. -/
theorem handler_failure_conversion_inst :
    postAgentTask okVerify noFetch (some "Bearer tok7")
      (.vObj [("taskType", .vStr "research"),
              ("payload", .vObj [("query", .vStr "agda")])])
      = (.resp 401 (mkErr "Invalid token"),
         [mkTask (.vStr "u1") (.vStr "research")
            (.vObj [("query", .vStr "agda")])])
    ∧ coordinate noFetch (.vObj [("tasks", .vArr [badExecTask])])
      = (.thrown (.typeError "action"), [badExecTask]) :=
  ⟨handler_failure_conversion.1 okVerify noFetch (some "Bearer tok7")
      (.vObj [("taskType", .vStr "research"),
              ("payload", .vObj [("query", .vStr "agda")])])
      "tok7" (.vObj [("id", .vStr "u1")]) (.vStr "research")
      (.vObj [("query", .vStr "agda")]) (researchAgent noFetch)
      (.vStr "u1") (.fetchError "network unreachable")
      rfl (by decide) rfl rfl rfl rfl rfl rfl rfl rfl,
   handler_failure_conversion.2 noFetch (.vObj [("tasks", .vArr [badExecTask])])
      [badExecTask] [badExecTask] (.typeError "action") rfl rfl⟩

/-- C4, counterexample: a single-task dispatch with an unregistered task
type produces HTTP status 400, not a successful call, and its body is
`error: Unknown agent` with no `agent` field — not the `agent`/`error`
envelope the claim describes. -/
theorem single_unknown_agent_is_400 :
    postAgentTask okVerify noFetch (some "Bearer tok2")
      (.vObj [("taskType", .vStr "ghost"), ("payload", .vObj [("x", .vNum 1)])])
      = (.resp 400 (mkErr "Unknown agent"), [])
    ∧ getField [("error", Value.vStr "Unknown agent")] "agent" = none :=
  ⟨rfl, rfl⟩

/-- C4, amended: a single-task dispatch whose task type resolves to no
registry member at all — neither a registered handler name nor an inherited
`Object.prototype` member name — does not throw and invokes no handler, but
it is reported as a transport-level client error: status 400 with body
`error: Unknown agent` and no `agent` field.  A task type naming an
inherited `Object.prototype` member (such as `toString`) instead passes the
truthy registry check, and the attempted call of the `undefined`
`handleTask` throws into the route's catch, answering 401 `Invalid token`,
still with no handler invoked.  The `agent`/`error` envelope exists only on
the batch path. -/
theorem single_unknown_agent_resp (verify : String → Except Unit Value)
    (fetch : String → Except HandlerErr Value)
    (auth : Option String) (body : Value) (tok : String) (user tt pl : Value)
    (h1 : extractToken auth = some tok) (h2 : ¬ tok = "")
    (h3 : verify tok = .ok user)
    (h4 : jsGet body "taskType" = .ok tt) (h5 : jsGet body "payload" = .ok pl)
    (h6 : truthy tt = true) (h7 : truthy pl = true) :
    (agents fetch (jsToString tt) = .absent →
      postAgentTask verify fetch auth body
        = (.resp 400 (mkErr "Unknown agent"), []))
    ∧ (agents fetch (jsToString tt) = .inherited →
      postAgentTask verify fetch auth body
        = (.resp 401 (mkErr "Invalid token"), [])) := by
  constructor
  · intro h8
    rw [postAgentTask_validated verify fetch auth body tok user tt pl
      h1 h2 h3 h4 h5 h6 h7]
    simp [h8]
  · intro h8
    rw [postAgentTask_validated verify fetch auth body tok user tt pl
      h1 h2 h3 h4 h5 h6 h7]
    simp [h8]

/-- C4, witness: the 400 `Unknown agent` response at a concrete unregistered
task type, and the 401 `Invalid token` response at the inherited key
`toString`, both with an empty handler-invocation trace. -/
theorem single_unknown_agent_resp_inst :
    postAgentTask okVerify noFetch (some "Bearer tok8")
      (.vObj [("taskType", .vStr "finalizer"), ("payload", .vObj [])])
      = (.resp 400 (mkErr "Unknown agent"), [])
    ∧ postAgentTask okVerify noFetch (some "Bearer tokD")
      (.vObj [("taskType", .vStr "toString"), ("payload", .vObj [])])
      = (.resp 401 (mkErr "Invalid token"), []) :=
  ⟨(single_unknown_agent_resp okVerify noFetch (some "Bearer tok8")
      (.vObj [("taskType", .vStr "finalizer"), ("payload", .vObj [])])
      "tok8" (.vObj [("id", .vStr "u1")]) (.vStr "finalizer") (.vObj [])
      rfl (by decide) rfl rfl rfl rfl rfl).1 rfl,
   (single_unknown_agent_resp okVerify noFetch (some "Bearer tokD")
      (.vObj [("taskType", .vStr "toString"), ("payload", .vObj [])])
      "tokD" (.vObj [("id", .vStr "u1")]) (.vStr "toString") (.vObj [])
      rfl (by decide) rfl rfl rfl rfl rfl).2 rfl⟩

/-- C5: a single-task request whose bearer credential is missing (no
authorization header, or no second chunk after splitting on spaces, or an
empty one) or invalid (the verifier rejects it) terminates with a 401
response and the handler-invocation trace is empty: no handler runs. -/
theorem auth_gate (verify : String → Except Unit Value)
    (fetch : String → Except HandlerErr Value)
    (auth : Option String) (body : Value)
    (h : extractToken auth = none ∨ extractToken auth = some "" ∨
         ∃ tok, extractToken auth = some tok ∧ verify tok = .error ()) :
    ((postAgentTask verify fetch auth body).1 = .resp 401 (mkErr "No token")
      ∨ (postAgentTask verify fetch auth body).1 = .resp 401 (mkErr "Invalid token"))
    ∧ (postAgentTask verify fetch auth body).2 = [] := by
  rcases h with h | h | ⟨tok, h, hv⟩
  · constructor
    · left; simp [postAgentTask, h]
    · simp [postAgentTask, h]
  · constructor
    · left; simp [postAgentTask, h]
    · simp [postAgentTask, h]
  · by_cases htok : tok = ""
    · subst htok
      constructor
      · left; simp [postAgentTask, h]
      · simp [postAgentTask, h]
    · constructor
      · right; simp [postAgentTask, h, htok, hv]
      · simp [postAgentTask, h, htok, hv]

/-- C5, witness: a rejected token yields a 401 response and an empty
handler-invocation trace. -/
theorem auth_gate_inst :
    ((postAgentTask badVerify noFetch (some "Bearer tok9")
        (.vObj [("taskType", .vStr "research"),
                ("payload", .vObj [("query", .vStr "x")])])).1
        = .resp 401 (mkErr "No token")
      ∨ (postAgentTask badVerify noFetch (some "Bearer tok9")
        (.vObj [("taskType", .vStr "research"),
                ("payload", .vObj [("query", .vStr "x")])])).1
        = .resp 401 (mkErr "Invalid token"))
    ∧ (postAgentTask badVerify noFetch (some "Bearer tok9")
        (.vObj [("taskType", .vStr "research"),
                ("payload", .vObj [("query", .vStr "x")])])).2 = [] :=
  auth_gate badVerify noFetch (some "Bearer tok9")
    (.vObj [("taskType", .vStr "research"),
            ("payload", .vObj [("query", .vStr "x")])])
    (Or.inr (Or.inr ⟨"tok9", rfl, rfl⟩))

/-- C6, counterexample: a body missing both fields gets exactly the same
response as a body missing only the payload — the single undifferentiated
`Missing fields` error.  The validator does not report a task-type-specific
error distinct from a payload-specific one. -/
theorem validator_single_error_message :
    postAgentTask okVerify noFetch (some "Bearer tok3") (.vObj [])
      = postAgentTask okVerify noFetch (some "Bearer tok3")
          (.vObj [("taskType", .vStr "research")])
    ∧ postAgentTask okVerify noFetch (some "Bearer tok3") (.vObj [])
      = (.resp 400 (mkErr "Missing fields"), []) :=
  ⟨rfl, rfl⟩

/-- C6, amended: the combined check `!taskType || !payload` is evaluated
with the task-type test first, and whenever the task type is falsy the
route answers 400 `Missing fields` regardless of the payload — but the
error is the same single message for every validation failure, so a body
missing both fields is not distinguishable from one missing only the
payload. -/
theorem validator_taskType_first (verify : String → Except Unit Value)
    (fetch : String → Except HandlerErr Value)
    (auth : Option String) (body : Value) (tok : String) (user tt pl : Value)
    (h1 : extractToken auth = some tok) (h2 : ¬ tok = "")
    (h3 : verify tok = .ok user)
    (h4 : jsGet body "taskType" = .ok tt) (h5 : jsGet body "payload" = .ok pl)
    (h6 : truthy tt = false) :
    postAgentTask verify fetch auth body
      = (.resp 400 (mkErr "Missing fields"), []) := by
  simp only [postAgentTask, h1]
  rw [if_neg h2]
  simp only [h3, h4, h5]
  rw [if_pos (Or.inl h6)]

/-- C6, witness: the `Missing fields` response on a body missing both
fields. -/
theorem validator_taskType_first_inst :
    postAgentTask okVerify noFetch (some "Bearer tokA") (.vObj [("n", .vNum 3)])
      = (.resp 400 (mkErr "Missing fields"), []) :=
  validator_taskType_first okVerify noFetch (some "Bearer tokA")
    (.vObj [("n", .vNum 3)]) "tokA" (.vObj [("id", .vStr "u1")])
    .vUndef .vUndef rfl (by decide) rfl rfl rfl rfl

/-- C7, counterexample: a body whose `payload` field is present and holds
`null` — the field exists, yet validation fails with `Missing fields`,
because the check is JavaScript truthiness of the value, not presence of
the field. -/
theorem present_null_payload_fails :
    jsGet (.vObj [("taskType", .vStr "research"), ("payload", .vNull)]) "payload"
      = .ok .vNull
    ∧ postAgentTask okVerify noFetch (some "Bearer tok4")
        (.vObj [("taskType", .vStr "research"), ("payload", .vNull)])
      = (.resp 400 (mkErr "Missing fields"), []) :=
  ⟨rfl, rfl⟩

/-- C7, amended: with a truthy task type, validation fails with
`Missing fields` exactly when the payload value is falsy — absent, or
present but `null`, `false`, `0` or the empty string; a present empty
object or array is truthy, passes validation, and the task proceeds to
dispatch. -/
theorem payload_validation_iff_truthy (verify : String → Except Unit Value)
    (fetch : String → Except HandlerErr Value)
    (auth : Option String) (body : Value) (tok : String) (user tt pl : Value)
    (h1 : extractToken auth = some tok) (h2 : ¬ tok = "")
    (h3 : verify tok = .ok user)
    (h4 : jsGet body "taskType" = .ok tt) (h5 : jsGet body "payload" = .ok pl)
    (h6 : truthy tt = true) :
    postAgentTask verify fetch auth body
        = (.resp 400 (mkErr "Missing fields"), [])
      ↔ truthy pl = false := by
  constructor
  · intro h
    by_contra hpl
    have h7 : truthy pl = true := by revert hpl; cases truthy pl <;> simp
    rw [postAgentTask_validated verify fetch auth body tok user tt pl
      h1 h2 h3 h4 h5 h6 h7] at h
    cases hag : agents fetch (jsToString tt) with
    | absent => simp only [hag] at h; simp [mkErr] at h
    | inherited => simp only [hag] at h; simp [mkErr] at h
    | registered a =>
      simp only [hag] at h
      cases hid : jsGet user "id" with
      | error e => simp only [hid] at h; simp [mkErr] at h
      | ok uid =>
        simp only [hid] at h
        cases hht : a.handleTask (mkTask uid tt pl) with
        | error e => simp only [hht] at h; simp [mkErr] at h
        | ok r => simp only [hht] at h; simp [mkErr] at h
  · intro h7
    simp only [postAgentTask, h1]
    rw [if_neg h2]
    simp only [h3, h4, h5]
    rw [if_pos (Or.inr h7)]

/-- C7, witness: a present empty-object payload passes validation — the
route's answer is not the `Missing fields` rejection. -/
theorem payload_validation_iff_truthy_inst :
    ¬ (postAgentTask okVerify noFetch (some "Bearer tok5")
        (.vObj [("taskType", .vStr "execution"), ("payload", .vObj [])])
        = (.resp 400 (mkErr "Missing fields"), [])) := by
  intro hc
  have h := (payload_validation_iff_truthy okVerify noFetch (some "Bearer tok5")
    (.vObj [("taskType", .vStr "execution"), ("payload", .vObj [])])
    "tok5" (.vObj [("id", .vStr "u1")]) (.vStr "execution") (.vObj [])
    rfl (by decide) rfl rfl rfl rfl).mp hc
  simp [truthy] at h

/-- C8: on the single-task path, once validated and authenticated, the
handler receives the task with the resolved caller identity attached
(`userId: user.id`, together with the task type and payload); on the batch
path every task handed to a handler is an element of the input batch passed
unchanged, so no identity is attached by the coordinator. -/
theorem identity_binding_paths :
    (∀ (verify : String → Except Unit Value)
       (fetch : String → Except HandlerErr Value)
       (auth : Option String) (body : Value) (tok : String)
       (user tt pl : Value) (a : Agent) (uid : Value),
       extractToken auth = some tok → ¬ tok = "" →
       verify tok = .ok user →
       jsGet body "taskType" = .ok tt → jsGet body "payload" = .ok pl →
       truthy tt = true → truthy pl = true →
       agents fetch (jsToString tt) = .registered a →
       jsGet user "id" = .ok uid →
       (postAgentTask verify fetch auth body).2 = [mkTask uid tt pl])
    ∧ (∀ (fetch : String → Except HandlerErr Value) (ts : List Value),
       ∀ v ∈ (coordinateLoop fetch ts).2, v ∈ ts) := by
  constructor
  · intro verify fetch auth body tok user tt pl a uid h1 h2 h3 h4 h5 h6 h7 h8 h9
    rw [postAgentTask_validated verify fetch auth body tok user tt pl
      h1 h2 h3 h4 h5 h6 h7]
    simp only [h8, h9]
    cases hht : a.handleTask (mkTask uid tt pl) <;> simp [hht]
  · intro fetch ts v hv
    exact (coordinateLoop_trace_spec fetch ts v hv).1

/-- C8, witness: a concrete planner dispatch hands the handler the task
with `userId: u1` attached, and a concrete one-task batch hands the handler
exactly the input element. -/
theorem identity_binding_paths_inst :
    (postAgentTask okVerify noFetch (some "Bearer tokB")
      (.vObj [("taskType", .vStr "planner"),
              ("payload", .vObj [("goal", .vStr "ship")])])).2
      = [mkTask (.vStr "u1") (.vStr "planner") (.vObj [("goal", .vStr "ship")])]
    ∧ plannerShipTask ∈ ([plannerShipTask] : List Value) :=
  ⟨identity_binding_paths.1 okVerify noFetch (some "Bearer tokB")
      (.vObj [("taskType", .vStr "planner"),
              ("payload", .vObj [("goal", .vStr "ship")])])
      "tokB" (.vObj [("id", .vStr "u1")]) (.vStr "planner")
      (.vObj [("goal", .vStr "ship")]) plannerAgent (.vStr "u1")
      rfl (by decide) rfl rfl rfl rfl rfl rfl rfl,
   identity_binding_paths.2 noFetch [plannerShipTask] plannerShipTask
     (show plannerShipTask ∈ (coordinateLoop noFetch [plannerShipTask]).2 by
       show plannerShipTask ∈ [plannerShipTask]
       exact List.mem_singleton.mpr rfl)⟩

/-- On any value that property reads do not throw on, every read
succeeds. -/
theorem jsGet_ok_of_truthy {v : Value} (h : truthy v = true) (k : String) :
    ∃ y, jsGet v k = .ok y := by
  cases v
  case vUndef => simp [truthy] at h
  case vNull => simp [truthy] at h
  all_goals exact ⟨_, rfl⟩

/-- The execution agent's final `else`: any action value other than the
four CRUD strings produces the `Unknown action` value as a success. -/
theorem executionAgent_unknown_action (task p act : Value)
    (hp : jsGet task "payload" = .ok p) (ha : jsGet p "action" = .ok act)
    (hd : ∃ d, jsGet p "data" = .ok d)
    (hmem : act ∉ ([.vStr "create", .vStr "read", .vStr "update",
                    .vStr "delete"] : List Value)) :
    executionAgent.handleTask task
      = .ok (.vObj [("error", .vStr "Unknown action")]) := by
  obtain ⟨d, hd⟩ := hd
  simp only [executionAgent, hp, ha, hd]
  cases act
  case vStr s =>
    simp only [List.mem_cons, List.not_mem_nil, or_false, Value.vStr.injEq] at hmem
    push_neg at hmem
    obtain ⟨n1, n2, n3, n4⟩ := hmem
    simp [n1, n2, n3, n4]
  all_goals rfl

/-- C10: the execution agent maps each CRUD action to the corresponding
past-tense status together with `payload.data`; every other action value
yields the success value `error: Unknown action`, which the single-task
route wraps as a 200 `agent`/`result` response, not as an error outcome. -/
theorem executionAgent_actions :
    (∀ (task p d : Value),
       jsGet task "payload" = .ok p → jsGet p "data" = .ok d →
       (jsGet p "action" = .ok (.vStr "create") →
          executionAgent.handleTask task
            = .ok (.vObj [("status", .vStr "created"), ("data", d)]))
       ∧ (jsGet p "action" = .ok (.vStr "read") →
          executionAgent.handleTask task
            = .ok (.vObj [("status", .vStr "read"), ("data", d)]))
       ∧ (jsGet p "action" = .ok (.vStr "update") →
          executionAgent.handleTask task
            = .ok (.vObj [("status", .vStr "updated"), ("data", d)]))
       ∧ (jsGet p "action" = .ok (.vStr "delete") →
          executionAgent.handleTask task
            = .ok (.vObj [("status", .vStr "deleted"), ("data", d)]))
       ∧ (∀ act, jsGet p "action" = .ok act →
          act ∉ ([.vStr "create", .vStr "read", .vStr "update",
                  .vStr "delete"] : List Value) →
          executionAgent.handleTask task
            = .ok (.vObj [("error", .vStr "Unknown action")])))
    ∧ (∀ (verify : String → Except Unit Value)
       (fetch : String → Except HandlerErr Value)
       (auth : Option String) (body : Value) (tok : String)
       (user pl uid act : Value),
       extractToken auth = some tok → ¬ tok = "" →
       verify tok = .ok user →
       jsGet body "taskType" = .ok (.vStr "execution") →
       jsGet body "payload" = .ok pl → truthy pl = true →
       jsGet user "id" = .ok uid →
       jsGet pl "action" = .ok act →
       act ∉ ([.vStr "create", .vStr "read", .vStr "update",
               .vStr "delete"] : List Value) →
       postAgentTask verify fetch auth body
         = (.resp 200 (.vObj [("agent", .vStr "execution"),
              ("result", .vObj [("error", .vStr "Unknown action")])]),
            [mkTask uid (.vStr "execution") pl])) := by
  constructor
  · intro task p d hp hd
    refine ⟨?_, ?_, ?_, ?_, ?_⟩
    · intro ha; simp [executionAgent, hp, ha, hd]
    · intro ha; simp [executionAgent, hp, ha, hd]
    · intro ha; simp [executionAgent, hp, ha, hd]
    · intro ha; simp [executionAgent, hp, ha, hd]
    · intro act ha hmem
      exact executionAgent_unknown_action task p act hp ha ⟨d, hd⟩ hmem
  · intro verify fetch auth body tok user pl uid act h1 h2 h3 h4 h5 h6 h7 h8 h9
    rw [postAgentTask_validated verify fetch auth body tok user
      (.vStr "execution") pl h1 h2 h3 h4 h5 (by decide) h6]
    have hag : agents fetch (jsToString (Value.vStr "execution"))
        = .registered executionAgent := rfl
    have hpp : jsGet (mkTask uid (Value.vStr "execution") pl) "payload"
        = .ok pl := by simp [mkTask, jsGet, getField]
    have hht := executionAgent_unknown_action
      (mkTask uid (Value.vStr "execution") pl) pl act hpp h8
      (jsGet_ok_of_truthy h6 "data") h9
    simp only [hag, h7, hht]

/-- C10, witness: a create action is echoed as `created` with its data, and
a non-CRUD action `fly` comes back through the route as a 200 result
carrying `error: Unknown action`. -/
theorem executionAgent_actions_inst :
    executionAgent.handleTask
      (.vObj [("payload", .vObj [("action", .vStr "create"), ("data", .vStr "x")])])
      = .ok (.vObj [("status", .vStr "created"), ("data", .vStr "x")])
    ∧ postAgentTask okVerify noFetch (some "Bearer tokC")
        (.vObj [("taskType", .vStr "execution"),
                ("payload", .vObj [("action", .vStr "fly")])])
      = (.resp 200 (.vObj [("agent", .vStr "execution"),
           ("result", .vObj [("error", .vStr "Unknown action")])]),
         [mkTask (.vStr "u1") (.vStr "execution")
            (.vObj [("action", .vStr "fly")])]) :=
  ⟨(executionAgent_actions.1
      (.vObj [("payload", .vObj [("action", .vStr "create"), ("data", .vStr "x")])])
      (.vObj [("action", .vStr "create"), ("data", .vStr "x")])
      (.vStr "x") rfl rfl).1 rfl,
   executionAgent_actions.2 okVerify noFetch (some "Bearer tokC")
      (.vObj [("taskType", .vStr "execution"),
              ("payload", .vObj [("action", .vStr "fly")])])
      "tokC" (.vObj [("id", .vStr "u1")]) (.vObj [("action", .vStr "fly")])
      (.vStr "u1") (.vStr "fly")
      rfl (by decide) rfl rfl rfl rfl rfl rfl (by simp)⟩

end MAPR
